import Mathlib

/-
Verification of the OpenQASM 2.0 codec of the tequila repository
(src/src/tequila/circuit/qasm.py), against the natural-language design
specification.  The Python functions are shallowly embedded as executable
Lean definitions; Python string primitives (strip, split, find, re.search)
are embedded as structurally recursive functions over lists of characters.
The circuit data model (QCircuit, Gate, the gate constructors and the
BasisCompiler) lives outside src/ and is modelled from the specification
where needed; every such definition is marked in its doc comment.
-/

namespace TequilaQasm

/-! ## Python string primitives -/

/-- The whitespace set of Python `str.strip`: space, tab, newline, carriage
return, vertical tab and form feed. -/
def pyWS (c : Char) : Bool :=
  c = ' ' || c = '\t' || c = '\n' || c = '\r' || c = '\x0b' || c = '\x0c'

/-- Python `str.strip()`: drop leading and trailing whitespace. -/
def pyStrip (l : List Char) : List Char :=
  ((l.dropWhile pyWS).reverse.dropWhile pyWS).reverse

/-- Python `s.split(sep, 1)` for a one-character separator, unpacked into two
names: splits at the first occurrence of `sep`; `none` models the `ValueError`
raised by unpacking when `sep` does not occur. -/
def splitOnceChar (sep : Char) : List Char → Option (List Char × List Char)
  | [] => none
  | c :: rest =>
    if c = sep then some ([], rest)
    else (splitOnceChar sep rest).map (fun p => (c :: p.1, p.2))

/-- Python `s.split(sep)` for a one-character separator: splits at every
occurrence, keeping empty pieces. -/
def splitChar (sep : Char) : List Char → List (List Char)
  | [] => [[]]
  | c :: rest =>
    if c = sep then [] :: splitChar sep rest
    else
      match splitChar sep rest with
      | [] => [[c]]
      | h :: t => (c :: h) :: t

/-- Python `s.find(pat)`: the index of the first occurrence of the substring
`pat`, with `none` modelling the `-1` of a failed search. -/
def subFind (pat : List Char) : List Char → Option Nat
  | [] => if pat = [] then some 0 else none
  | c :: rest =>
    if pat.isPrefixOf (c :: rest) then some 0
    else (subFind pat rest).map (fun n => n + 1)

/-- Value of a run of decimal digits, as read by Python `int(...)`. -/
def digitsVal (ds : List Char) : Nat :=
  ds.foldl (fun acc c => acc * 10 + (c.toNat - 48)) 0

/-- Longest run of decimal digits at the front of the list, and the rest. -/
def takeDigits : List Char → List Char × List Char
  | [] => ([], [])
  | c :: rest =>
    if c.isDigit then
      let p := takeDigits rest
      (c :: p.1, p.2)
    else ([], c :: rest)

/-- Model of `int(re.search(pattern, s).group(1))` for the pattern bracketed
digit run used at qasm.py lines 255-259: scanning left to right, the integer
inside the first substring consisting of an opening bracket, one or more
digits, and a closing bracket; `none` models a failed search (whose `.group`
call raises `AttributeError`). -/
def findBracketInt : List Char → Option Nat
  | [] => none
  | c :: rest =>
    if c = '[' then
      match takeDigits rest with
      | ([], _) => findBracketInt rest
      | (ds, r) =>
        match r with
        | ']' :: _ => some (digitsVal ds)
        | _ => findBracketInt rest
    else findBracketInt rest

/-- Python `str.lower()` (ASCII). -/
def strLower (s : String) : String :=
  String.mk (s.data.map Char.toLower)

/-! ## Data model (modelled from the spec; these classes live outside src/) -/

/-- Modelled from the spec, section 3: a variable assignment maps variable
identifiers to numbers.  The codec never inspects its contents. -/
abbrev VarMap := List (String × Rat)

/-- Modelled from the spec, section 3: a gate parameter is a pure function
from an optional variable assignment to a number.  `render` models the Python
`str(g.parameter(variables))` used by the exporter; `vars` models the
unresolved variable references the parameter reports to `extract_variables`. -/
structure Param where
  vars : List String
  render : Option VarMap → String

/-- Modelled from the spec, section 3: an immutable gate value with a
primitive name, ordered targets, controls and an optional parameter.  The
gate classes live in tequila.circuit.gates, outside src/. -/
structure Gate where
  name : String
  target : List Nat
  control : List Nat
  parameter : Option Param

/-- Modelled from the spec, sections 3 and 4.4: a circuit is an ordered
sequence of gates, built only by ordered composition. -/
structure QCircuit where
  gates : List Gate

/-- Modelled from the spec, section 4.4: ordered composition (`circuit += res`). -/
def QCircuit.add (a b : QCircuit) : QCircuit :=
  ⟨a.gates ++ b.gates⟩

/-- Modelled from the spec, section 3: qubit count is the maximum referenced
qubit index plus one, and 0 for the empty circuit (QCircuit.n_qubits lives
outside src/). -/
def QCircuit.n_qubits (c : QCircuit) : Nat :=
  (c.gates.foldr (fun g acc => g.target ++ g.control ++ acc) []).foldr
    (fun q m => max (q + 1) m) 0

/-- The unresolved variable references of one gate. -/
def gateVars (g : Gate) : List String :=
  match g.parameter with
  | some p => p.vars
  | none => []

/-- Unresolved variable references of a gate list, in order. -/
def extractVarsList : List Gate → List String
  | [] => []
  | g :: gs => gateVars g ++ extractVarsList gs

/-- Modelled from the spec, section 3: `circuit.extract_variables()`, the
unresolved variable references of a circuit (lives outside src/). -/
def QCircuit.extract_variables (c : QCircuit) : List String :=
  extractVarsList c.gates

/-- Modelled from the spec, section 4.3: the gate constructors X, Y, Z of
tequila.circuit.gates (outside src/) build a one-gate circuit with the given
single target and no controls or parameter. -/
def gateCircuit (nm : String) (t : Nat) : QCircuit :=
  ⟨[⟨nm, [t], [], none⟩]⟩

/-- The Python exceptions the embedded code can surface, with their messages. -/
inductive PyError where
  | typeError (msg : String)
  | tequilaException (msg : String)
  | attributeError (msg : String)
  | indexError (msg : String)
  | valueError (msg : String)
deriving DecidableEq

/-! ## Export path (qasm.py lines 15-219) -/

/-- The named boolean capabilities of the BasisCompiler configuration
contract (spec section 6); the Compiler class itself lives outside src/. -/
structure CompilerFlags where
  multitarget : Bool
  multicontrol : Bool
  trotterized : Bool
  generalized_rotation : Bool
  exponential_pauli : Bool
  controlled_exponential_pauli : Bool
  hadamard_power : Bool
  controlled_power : Bool
  power : Bool
  toffoli : Bool
  controlled_phase : Bool
  phase : Bool
  phase_to_z : Bool
  controlled_rotation : Bool
  swap : Bool
  cc_max : Bool
  gradient_mode : Bool
  ry_gate : Bool
  y_gate : Bool
deriving DecidableEq

/-- The Compiler configuration built at qasm.py lines 141-159. -/
def exportCompilerFlags (zx_calculus : Bool) : CompilerFlags :=
  { multitarget := true
    multicontrol := false
    trotterized := true
    generalized_rotation := true
    exponential_pauli := true
    controlled_exponential_pauli := true
    hadamard_power := true
    controlled_power := true
    power := true
    toffoli := true
    controlled_phase := true
    phase := true
    phase_to_z := true
    controlled_rotation := true
    swap := true
    cc_max := true
    gradient_mode := false
    ry_gate := zx_calculus
    y_gate := zx_calculus }

/-- The run of control markers built by the loop at qasm.py lines 209-210:
one letter c appended per control. -/
def cRun : Nat → String
  | 0 => ""
  | n + 1 => cRun n ++ "c"

/-- The optional parameter suffix of qasm.py lines 214-215. -/
def paramSuffix (g : Gate) (varMap : Option VarMap) : String :=
  match g.parameter with
  | some p => "(" ++ p.render varMap ++ ")"
  | none => ""

/-- qasm.py lines 195-219: the gate token builder `name_and_params`. -/
def name_and_params (g : Gate) (varMap : Option VarMap) : String :=
  cRun g.control.length ++ strLower g.name ++ paramSuffix g varMap ++ " "

/-- The deterministic qubit naming of qasm.py lines 165-168. -/
def qubitName (q : Nat) : String :=
  "q[" ++ toString q ++ "]"

/-- The control string of qasm.py lines 175-183: empty for an uncontrolled
gate, otherwise every control name joined by commas and a trailing comma. -/
def controlStr (g : Gate) : String :=
  if g.control = [] then ""
  else String.intercalate "," (g.control.map qubitName) ++ ","

/-- Comma-separated bracketed rendering of a list of numbers. -/
def natListRepr (l : List Nat) : String :=
  "[" ++ String.intercalate ", " (l.map toString) ++ "]"

/-- Modelled from the spec: the textual rendering of a gate that qasm.py line
180 interpolates into the multi-control error message (the gate str() lives
outside src/). -/
def gateRepr (g : Gate) : String :=
  g.name ++ "(target=" ++ natListRepr g.target ++ ", control=" ++ natListRepr g.control ++ ")"

/-- The message of the multi-control error at qasm.py lines 179-180. -/
def multiCtrlMsg (g : Gate) : String :=
  "Multi-controls beyond 2 not yet supported for OpenQASM 2.0. Gate was:\n" ++ gateRepr g

/-- An error is the UnsupportedControlArity failure of the spec taxonomy when
it is the TequilaException carrying the multi-control message of some gate. -/
def isMultiCtrlErr (e : PyError) : Prop :=
  ∃ g : Gate, e = PyError.tequilaException (multiCtrlMsg g)

/-- Bracketed rendering of the unresolved variable list. -/
def varListRepr (vs : List String) : String :=
  "[" ++ String.intercalate ", " vs ++ "]"

/-- The message of the missing-variables error at qasm.py lines 137-139. -/
def missingVarsMsg (vs : List String) : String :=
  "You called export_open_qasm for a parametrized type but forgot to pass down the variables: "
    ++ varListRepr vs

/-- The statement emitted for one target of one gate (qasm.py lines 187-190). -/
def emitStmt (g : Gate) (varMap : Option VarMap) (t : Nat) : String :=
  name_and_params g varMap ++ controlStr g ++ qubitName t ++ ";\n"

/-- qasm.py lines 186-190: the accumulation `result += ...` over `g.target`,
one full statement per target qubit. -/
def emitGate (g : Gate) (varMap : Option VarMap) : String :=
  g.target.foldl (fun acc t => acc ++ emitStmt g varMap t) ""

/-- qasm.py lines 173-192: the per-gate serialization loop, failing on the
first gate with more than two controls. -/
def emitGates (varMap : Option VarMap) : List Gate → Except PyError String
  | [] => Except.ok ""
  | g :: gs =>
    if 2 < g.control.length then
      Except.error (PyError.tequilaException (multiCtrlMsg g))
    else (emitGates varMap gs).map (fun rest => emitGate g varMap ++ rest)

/-- qasm.py lines 163-192: header, register declarations and gate statements
for an already compiled circuit. -/
def convert_body (compiled : QCircuit) (varMap : Option VarMap) : Except PyError String :=
  (emitGates varMap compiled.gates).map (fun body =>
    "OPENQASM 2.0;\ninclude \"qelib1.inc\";\n"
      ++ "qreg q[" ++ toString compiled.n_qubits ++ "];\n"
      ++ "creg c[" ++ toString compiled.n_qubits ++ "];\n"
      ++ body)

/-- qasm.py lines 123-192.  The BasisCompiler is an external collaborator
(spec section 2), received here explicitly as `compileImpl`; the source
constructs it with the flags `exportCompilerFlags zx_calculus` and applies it
with `variables=None` (line 161). -/
def convert_to_open_qasm_2
    (compileImpl : CompilerFlags → QCircuit → Option VarMap → QCircuit)
    (circuit : QCircuit) (varMap : Option VarMap) (zx_calculus : Bool) :
    Except PyError String :=
  if varMap = none ∧ circuit.extract_variables.length ≠ 0 then
    Except.error (PyError.tequilaException (missingVarsMsg circuit.extract_variables))
  else
    convert_body (compileImpl (exportCompilerFlags zx_calculus) circuit none) varMap

/-- qasm.py lines 15-41 (the optional file write is boundary I/O and out of
scope).  An unsupported version is a soft failure: the descriptive string is
returned as a normal result. -/
def export_open_qasm
    (compileImpl : CompilerFlags → QCircuit → Option VarMap → QCircuit)
    (circuit : QCircuit) (varMap : Option VarMap) (version : String)
    (zx_calculus : Bool) : Except PyError String :=
  if version = "2.0" then
    convert_to_open_qasm_2 compileImpl circuit varMap zx_calculus
  else
    Except.ok ("Unsupported OpenQASM version : " ++ version)

/-! ## Import path (qasm.py lines 44-99 and 222-259) -/

/-- The Python TypeError message produced by iterating a bound builtin
method. -/
def pyNotIterableMsg : String :=
  "\x27builtin_function_or_method\x27 object is not iterable"

/-- qasm.py lines 44-99.  Line 60 stores the method object
`qasm_code.splitlines` without calling it, so the loop `for line in lines`
at line 63 raises TypeError on every input, before any argument or any later
line of the function is consulted. -/
def import_open_qasm (qasm_code : String) (varMap : Option VarMap)
    (version : String) (rigorous : Bool) : Except PyError QCircuit :=
  Except.error (PyError.typeError pyNotIterableMsg)

/-- The AttributeError message of calling `.group` on a failed `re.search`. -/
def attrGroupMsg : String :=
  "\x27NoneType\x27 object has no attribute \x27group\x27"

/-- The shared tail of the x, y, z branches at qasm.py lines 254-259: extract
a bracketed index from the first argument and build a one-gate circuit. -/
def xyzFromArgs (nm : String) (args : List (List Char)) : Except PyError (Option QCircuit) :=
  match args with
  | [] => Except.error (PyError.indexError "list index out of range")
  | a :: _ =>
    match findBracketInt a with
    | none => Except.error (PyError.attributeError attrGroupMsg)
    | some t => Except.ok (some (gateCircuit nm t))

/-- qasm.py lines 240-259 after the leading identifier has been split off:
the dispatch table over statement kinds. -/
def parseNamed (command : String) (name : String) (rest : List Char) :
    Except PyError (Option QCircuit) :=
  if name = "barrier" ∨ name = "creg" ∨ name = "measure" ∨ name = "id" then
    Except.ok none
  else if name = "opaque" ∨ name = "if" then
    Except.error (PyError.tequilaException ("Unsupported operation " ++ command))
  else
    let args := ((splitChar ',' rest).map pyStrip).filter (fun a => !a.isEmpty)
    if name = "x" then xyzFromArgs "X" args
    else if name = "y" then xyzFromArgs "Y" args
    else if name = "z" then xyzFromArgs "Z" args
    else Except.ok none

/-- qasm.py lines 232-259: parse one statement. -/
def parse_command (command : String) : Except PyError (Option QCircuit) :=
  match splitOnceChar ' ' command.data with
  | none => Except.error (PyError.valueError "not enough values to unpack (expected 2, got 1)")
  | some p => parseNamed command (String.mk p.1) p.2

/-- qasm.py lines 222-229: the custom-gate handler evaluates len() and
discards it. -/
def parse_custom_gate (custom : String) : Unit := ()

/-- One line of the comment-stripping loop at qasm.py lines 63-69. -/
def cleanLine (line : List Char) : List Char :=
  match subFind ('/' :: '/' :: []) line with
  | some i => pyStrip (line.take i)
  | none => pyStrip line

/-- qasm.py lines 61-69: comment stripping, trimming and dropping of empty
lines. -/
def oqClean (lines : List (List Char)) : List (List Char) :=
  (lines.map cleanLine).filter (fun l => !l.isEmpty)

/-- The MalformedHeader message for a missing version directive (line 74). -/
def headerDirectiveMsg : String :=
  "File must start with the \x27OPENQASM\x27 directive"

/-- The MalformedHeader message for a missing standard include (line 79). -/
def includeDirectiveMsg : String :=
  "File must import standard library"

/-- One header check of qasm.py lines 71-79: consume the first retained line
when it starts with the tag, otherwise fail under rigorous mode and keep the
line untouched otherwise.  The empty-list case models the IndexError of
`oq_code[0]`. -/
def popHeader (tag : List Char) (msg : String) (rigorous : Bool)
    (oq : List (List Char)) : Except PyError (List (List Char)) :=
  match oq with
  | [] => Except.error (PyError.indexError "list index out of range")
  | first :: rest =>
    if tag.isPrefixOf first then Except.ok rest
    else if rigorous then Except.error (PyError.tequilaException msg)
    else Except.ok (first :: rest)

/-- The closing-brace character. -/
def closeBrace : Char := '\x7d'

/-- qasm.py lines 83-89: repeatedly excise the span from each occurrence of
the gate keyword to the next closing brace.  The fuel only bounds the
recursion; `none` models the non-terminating loop the Python code enters when
a located block has no closing brace (then `find` returns -1 and the slice
arithmetic re-appends the whole text forever). -/
def removeGateBlocks : Nat → List Char → Option (List Char)
  | 0, _ => none
  | fuel + 1, code =>
    match subFind ('g' :: 'a' :: 't' :: 'e' :: ' ' :: []) code with
    | none => some code
    | some i =>
      match subFind [closeBrace] (code.drop i) with
      | none => none
      | some d => removeGateBlocks fuel (code.take i ++ code.drop (i + d + 1))

/-- qasm.py lines 92-97: parse each statement and accumulate the gates by
ordered composition, skipping statements that produce no gate. -/
def foldCommands : List (List Char) → QCircuit → Except PyError QCircuit
  | [], acc => Except.ok acc
  | c :: cs, acc =>
    match parse_command (String.mk c) with
    | Except.error e => Except.error e
    | Except.ok none => foldCommands cs acc
    | Except.ok (some res) => foldCommands cs (acc.add res)

/-- Lines 61-99 of qasm.py as they would execute had line 60 called
`splitlines()`; the line list is modelled as splitting on the newline
character, which agrees with Python on the texts considered here.  The outer
Option models termination: `none` is the non-terminating loop of lines 83-89
(unclosed gate block), `some` is normal completion. -/
def import_open_qasm_intended (qasm_code : String) (rigorous : Bool) :
    Option (Except PyError QCircuit) :=
  let oq := oqClean (splitChar '\n' qasm_code.data)
  match popHeader ("OPENQASM".data) headerDirectiveMsg rigorous oq with
  | Except.error e => some (Except.error e)
  | Except.ok oq1 =>
    match popHeader ("include \"qelib1.inc\";".data) includeDirectiveMsg rigorous oq1 with
    | Except.error e => some (Except.error e)
    | Except.ok oq2 =>
      let code := List.intercalate ['\n'] oq2
      match removeGateBlocks (code.length + 1) code with
      | none => none
      | some code2 =>
        some (foldCommands (((splitChar ';' code2).map pyStrip).filter (fun l => !l.isEmpty)) ⟨[]⟩)

/-! ## Concrete instances used by witnesses -/

/-- Modelled from the spec, section 2: the BasisCompiler returns an
equivalent circuit in the primitive vocabulary; for concrete witnesses it is
instantiated with the identity on circuits that are already primitive. -/
def idCompile : CompilerFlags → QCircuit → Option VarMap → QCircuit :=
  fun _ c _ => c

/-- A circuit holding a single X gate on qubit 0. -/
def xCircuit : QCircuit := gateCircuit "X" 0

/-- The exact text `export_open_qasm` produces for `xCircuit`. -/
def x0Text : String :=
  "OPENQASM 2.0;\ninclude \"qelib1.inc\";\nqreg q[1];\ncreg c[1];\nx q[0];\n"

/-! ## String lemmas -/

theorem strAppendNilRight (s : String) : s ++ "" = s := by
  cases s with
  | mk l => exact congrArg String.mk (List.append_nil l)

theorem strNilAppendLeft (s : String) : "" ++ s = s := by
  cases s with
  | mk l => rfl

theorem strAppendAssoc (a b c : String) : a ++ b ++ c = a ++ (b ++ c) := by
  cases a with
  | mk x =>
    cases b with
    | mk y =>
      cases c with
      | mk z => exact congrArg String.mk (List.append_assoc x y z)

theorem strJoinCons (s : String) (t : List String) :
    String.join (s :: t) = s ++ String.join t := by
  have key : ∀ (l : List String) (acc : String),
      l.foldl (fun r s => r ++ s) acc = acc ++ String.join l := by
    intro l
    induction l with
    | nil => intro acc; exact (strAppendNilRight acc).symm
    | cons u v ih =>
      intro acc
      show v.foldl (fun r s => r ++ s) (acc ++ u) = acc ++ String.join (u :: v)
      rw [ih (acc ++ u)]
      have h2 : String.join (u :: v) = u ++ String.join v := by
        show v.foldl (fun r s => r ++ s) ("" ++ u) = u ++ String.join v
        rw [ih ("" ++ u), strNilAppendLeft]
      rw [h2, strAppendAssoc]
  show t.foldl (fun r s => r ++ s) ("" ++ s) = s ++ String.join t
  rw [key t ("" ++ s), strNilAppendLeft]

theorem foldlAppendEqJoin (f : Nat → String) (ts : List Nat) :
    ∀ acc : String,
      ts.foldl (fun acc t => acc ++ f t) acc = acc ++ String.join (ts.map f) := by
  induction ts with
  | nil => intro acc; exact (strAppendNilRight acc).symm
  | cons t ts ih =>
    intro acc
    show ts.foldl (fun acc t => acc ++ f t) (acc ++ f t)
        = acc ++ String.join (f t :: ts.map f)
    rw [ih (acc ++ f t), strJoinCons, strAppendAssoc]

theorem cRunEqReplicate (n : Nat) : cRun n = String.mk (List.replicate n 'c') := by
  induction n with
  | zero => rfl
  | succ n ih =>
    show cRun n ++ "c" = String.mk (List.replicate (n + 1) 'c')
    rw [ih]
    show String.mk (List.replicate n 'c' ++ ['c']) = String.mk (List.replicate (n + 1) 'c')
    rw [← List.replicate_succ']

/-! ## Serialization lemmas (claims C4, C5) -/

theorem emitGateJoin (g : Gate) (varMap : Option VarMap) :
    emitGate g varMap = String.join (g.target.map (emitStmt g varMap)) := by
  show g.target.foldl (fun acc t => acc ++ emitStmt g varMap t) ""
      = String.join (g.target.map (emitStmt g varMap))
  rw [foldlAppendEqJoin (emitStmt g varMap) g.target "", strNilAppendLeft]

theorem emitGatesOk (varMap : Option VarMap) :
    ∀ gs : List Gate, (∀ g ∈ gs, g.control.length ≤ 2) →
      ∃ s, emitGates varMap gs = Except.ok s := by
  intro gs
  induction gs with
  | nil => intro _; exact ⟨"", rfl⟩
  | cons g gs ih =>
    intro h
    obtain ⟨s, hs⟩ := ih (fun g2 hm => h g2 (List.mem_cons_of_mem g hm))
    refine ⟨emitGate g varMap ++ s, ?_⟩
    simp only [emitGates]
    rw [if_neg (Nat.not_lt.mpr (h g (List.mem_cons_self g gs))), hs]
    rfl

theorem emitGatesErr (varMap : Option VarMap) :
    ∀ gs : List Gate, (∃ g ∈ gs, 2 < g.control.length) →
      ∃ e, emitGates varMap gs = Except.error e ∧ isMultiCtrlErr e := by
  intro gs
  induction gs with
  | nil =>
    rintro ⟨g, hg, _⟩
    cases hg
  | cons g gs ih =>
    rintro ⟨g0, hg0, hgt⟩
    by_cases hc : 2 < g.control.length
    · refine ⟨PyError.tequilaException (multiCtrlMsg g), ?_, g, rfl⟩
      simp only [emitGates]
      rw [if_pos hc]
    · cases hg0 with
      | head => exact absurd hgt hc
      | tail _ hm =>
        obtain ⟨e, he, hmc⟩ := ih ⟨g0, hm, hgt⟩
        refine ⟨e, ?_, hmc⟩
        simp only [emitGates]
        rw [if_neg hc, he]
        rfl

/-- A gate with three controls, violating the OpenQASM 2.0 arity bound. -/
def badGate : Gate := ⟨"X", [3], [0, 1, 2], none⟩

/-- A compiled circuit holding only `badGate`. -/
def badCirc : QCircuit := ⟨[badGate]⟩

/-- A singly-controlled H gate. -/
def chGate : Gate := ⟨"H", [0], [2], none⟩

/-- A compiled circuit holding only `chGate`. -/
def chCirc : QCircuit := ⟨[chGate]⟩

/-- Claim C4 (confirmed): for every gate of the compiled circuit with more
than 2 controls the export serialization fails with the
UnsupportedControlArity error, and when every gate has at most 2 controls it
succeeds and each gate token starts with exactly one letter c per control
followed by the lower-cased gate name. -/
theorem c4_control_arity (compiled : QCircuit) (varMap : Option VarMap) :
    ((∃ g ∈ compiled.gates, 2 < g.control.length) →
      ∃ e, convert_body compiled varMap = Except.error e ∧ isMultiCtrlErr e)
    ∧ ((∀ g ∈ compiled.gates, g.control.length ≤ 2) →
      (∃ s, convert_body compiled varMap = Except.ok s)
      ∧ ∀ g ∈ compiled.gates, ∃ tokenTail,
          name_and_params g varMap
            = String.mk (List.replicate g.control.length 'c') ++ strLower g.name ++ tokenTail) := by
  constructor
  · intro h
    obtain ⟨e, he, hmc⟩ := emitGatesErr varMap compiled.gates h
    refine ⟨e, ?_, hmc⟩
    unfold convert_body
    rw [he]
    rfl
  · intro hall
    constructor
    · obtain ⟨s, hs⟩ := emitGatesOk varMap compiled.gates hall
      refine ⟨"OPENQASM 2.0;\ninclude \"qelib1.inc\";\n"
          ++ "qreg q[" ++ toString compiled.n_qubits ++ "];\n"
          ++ "creg c[" ++ toString compiled.n_qubits ++ "];\n" ++ s, ?_⟩
      unfold convert_body
      rw [hs]
      rfl
    · intro g _
      refine ⟨paramSuffix g varMap ++ " ", ?_⟩
      unfold name_and_params
      rw [cRunEqReplicate]
      exact strAppendAssoc _ _ _

/-- Witness for C4: the three-control gate makes `convert_body` fail with the
multi-control error, and the single-control circuit serializes with the
claimed token shape. -/
theorem c4_witness :
    (∃ e, convert_body badCirc none = Except.error e ∧ isMultiCtrlErr e)
    ∧ ((∃ s, convert_body chCirc none = Except.ok s)
      ∧ ∀ g ∈ chCirc.gates, ∃ tokenTail,
          name_and_params g none
            = String.mk (List.replicate g.control.length 'c') ++ strLower g.name ++ tokenTail) :=
  ⟨(c4_control_arity badCirc none).1 ⟨badGate, List.mem_cons_self badGate [], by decide⟩,
   (c4_control_arity chCirc none).2 (by
     intro g hg
     cases hg with
     | head => decide
     | tail _ hm => cases hm)⟩

/-- A two-target, one-control gate exercising the per-target expansion. -/
def mtGate : Gate := ⟨"X", [0, 2], [1], none⟩

/-- Claim C5 (confirmed): a compiled gate is emitted as one full statement
per target qubit, each consisting of the gate token, the full control list
and that single target name; targets are never grouped into one statement. -/
theorem c5_per_target (g : Gate) (varMap : Option VarMap) :
    emitGate g varMap
      = String.join (g.target.map (fun t =>
          name_and_params g varMap ++ controlStr g ++ qubitName t ++ ";\n"))
    ∧ (g.control ≠ [] →
        controlStr g = String.intercalate "," (g.control.map qubitName) ++ ",") := by
  constructor
  · exact emitGateJoin g varMap
  · intro h
    unfold controlStr
    rw [if_neg h]

/-- Witness for C5: the two-target controlled gate is emitted as two
single-target statements, each carrying the one control name. -/
theorem c5_witness :
    emitGate mtGate none = "cx q[1],q[0];\ncx q[1],q[2];\n"
    ∧ controlStr mtGate = "q[1]," :=
  ⟨(c5_per_target mtGate none).1, (c5_per_target mtGate none).2 (by decide)⟩

/-! ## Missing-variables lemmas (claim C6) -/

theorem extractVarsNeNil :
    ∀ gs : List Gate, (∃ g ∈ gs, ∃ p, g.parameter = some p ∧ p.vars ≠ []) →
      extractVarsList gs ≠ [] := by
  intro gs
  induction gs with
  | nil =>
    rintro ⟨g, hg, _⟩
    cases hg
  | cons g gs ih =>
    rintro ⟨g0, hg0, p, hp, hpv⟩
    cases hg0 with
    | head =>
      show gateVars g ++ extractVarsList gs ≠ []
      unfold gateVars
      rw [hp]
      exact fun heq => hpv (List.append_eq_nil.mp heq).1
    | tail _ hm =>
      have hne := ih ⟨g0, hm, p, hp, hpv⟩
      show gateVars g ++ extractVarsList gs ≠ []
      exact fun heq => hne (List.append_eq_nil.mp heq).2

/-- Claim C6 (confirmed): exporting a circuit that carries an unresolved
parameter without a variables mapping fails with the MissingVariables error,
whose message names the unresolved variable set; it never silently
defaults. -/
theorem c6_missing_variables
    (compileImpl : CompilerFlags → QCircuit → Option VarMap → QCircuit)
    (circuit : QCircuit) (zx_calculus : Bool)
    (h : ∃ g ∈ circuit.gates, ∃ p, g.parameter = some p ∧ p.vars ≠ []) :
    export_open_qasm compileImpl circuit none "2.0" zx_calculus
      = Except.error (PyError.tequilaException (missingVarsMsg circuit.extract_variables)) := by
  have hne : circuit.extract_variables ≠ [] := extractVarsNeNil circuit.gates h
  unfold export_open_qasm
  rw [if_pos rfl]
  unfold convert_to_open_qasm_2
  rw [if_pos ⟨rfl, fun hlen => hne (List.length_eq_zero.mp hlen)⟩]

/-- A parameter depending on the unresolved variable a. -/
def pParam : Param := ⟨["a"], fun _ => "0.5"⟩

/-- A rotation gate carrying the unresolved parameter. -/
def pGate : Gate := ⟨"Rx", [0], [], some pParam⟩

/-- A circuit holding the parametrized gate. -/
def pCirc : QCircuit := ⟨[pGate]⟩

/-- Witness for C6: exporting the parametrized circuit without variables
yields exactly the missing-variables TequilaException naming the set. -/
theorem c6_witness :
    export_open_qasm idCompile pCirc none "2.0" false
      = Except.error (PyError.tequilaException
          "You called export_open_qasm for a parametrized type but forgot to pass down the variables: [a]") :=
  c6_missing_variables idCompile pCirc false
    ⟨pGate, List.mem_cons_self pGate [], pParam, rfl, by decide⟩

/-! ## Round trip (claim C1) -/

/-- Counterexample to claim C1 as stated: for the one-gate circuit `xCircuit`
(no unresolved parameters, compiled by the identity), importing the exported
text does not produce the compiled qubit count 1 — the import raises a
TypeError instead, so the round-trip equality fails at this concrete
input. -/
theorem c1_counterexample :
    (export_open_qasm idCompile xCircuit none "2.0" false).bind
      (fun text => (import_open_qasm text none "2.0" true).map QCircuit.n_qubits)
    ≠ Except.ok (idCompile (exportCompilerFlags false) xCircuit none).n_qubits := by
  intro h
  exact Except.noConfusion h

/-- Claim C1 (amended): importing the text produced by exporting any circuit
never yields a circuit at all: `import_open_qasm` raises TypeError on every
input, because line 60 stores `str.splitlines` without calling it, so the
round-trip qubit-count equality holds for no circuit. -/
theorem c1_round_trip_crashes
    (compileImpl : CompilerFlags → QCircuit → Option VarMap → QCircuit)
    (circuit : QCircuit) (varMap : Option VarMap) (zx_calculus : Bool) (text : String)
    (hexp : export_open_qasm compileImpl circuit varMap "2.0" zx_calculus = Except.ok text)
    (varMap2 : Option VarMap) (version : String) (rigorous : Bool) :
    import_open_qasm text varMap2 version rigorous
      = Except.error (PyError.typeError pyNotIterableMsg) := rfl

/-- Witness for C1 (amended): the export of `xCircuit` succeeds with the
concrete text `x0Text`, and importing that text fails with the TypeError. -/
theorem c1_witness :
    export_open_qasm idCompile xCircuit none "2.0" false = Except.ok x0Text
    ∧ import_open_qasm x0Text none "2.0" true
        = Except.error (PyError.typeError pyNotIterableMsg) :=
  ⟨rfl, c1_round_trip_crashes idCompile xCircuit none false x0Text rfl none "2.0" true⟩

/-! ## Import scenarios (claims C2, C3, C9) -/

/-- The exact text of the concrete import scenario of the spec. -/
def c2Text : String :=
  "OPENQASM 2.0;\ninclude \"qelib1.inc\";\nx q[0];\nbarrier q[0];\nz q[1];"

/-- Claim C2 (code bug): importing the scenario text in strict mode does not
return the two-gate circuit the spec describes; the import crashes with the
TypeError raised by iterating the un-called `splitlines` method. -/
theorem c2_import_crashes :
    import_open_qasm c2Text none "2.0" true
      = Except.error (PyError.typeError pyNotIterableMsg) := rfl

/-- Supporting result for C2: had line 60 called `splitlines()`, the rest of
the import path would return exactly the circuit the spec describes — an X
gate on qubit 0 then a Z gate on qubit 1, with the barrier ignored. -/
theorem c2_intended_scenario :
    import_open_qasm_intended c2Text true
      = some (Except.ok ⟨[⟨"X", [0], [], none⟩, ⟨"Z", [1], [], none⟩]⟩) := rfl

/-- A text whose first retained line does not start with the version
directive. -/
def c3Text : String := "x q[0];"

/-- Claim C3 (code bug): on a text missing the OPENQASM directive, the
strict-mode call does not fail with the MalformedHeader error and the
non-strict call does not succeed — both crash with the TypeError of the
un-called `splitlines` method before the header check is reached. -/
theorem c3_import_crashes_both_modes :
    import_open_qasm c3Text none "2.0" true
      = Except.error (PyError.typeError pyNotIterableMsg)
    ∧ import_open_qasm c3Text none "2.0" false
      = Except.error (PyError.typeError pyNotIterableMsg) := ⟨rfl, rfl⟩

/-- Supporting result for C3: had line 60 called `splitlines()`, strict mode
would fail with the MalformedHeader message, and non-strict mode would keep
the unmatched line and parse the body from it. -/
theorem c3_intended_contrast :
    import_open_qasm_intended c3Text true
      = some (Except.error (PyError.tequilaException headerDirectiveMsg))
    ∧ import_open_qasm_intended c3Text false
      = some (Except.ok ⟨[⟨"X", [0], [], none⟩]⟩) := ⟨rfl, rfl⟩

/-- Claim C9 (confirmed): the result of `import_open_qasm` is independent of
its `variables` and `version` arguments — the body never reads them (it
raises the TypeError of line 60 before consulting any argument). -/
theorem c9_import_args_independent (qasm_code : String)
    (varMap1 varMap2 : Option VarMap) (version1 version2 : String) (rigorous : Bool) :
    import_open_qasm qasm_code varMap1 version1 rigorous
      = import_open_qasm qasm_code varMap2 version2 rigorous := rfl

/-! ## Compiler configuration (claim C8) -/

/-- Counterexample to claim C8 as stated: the `multicontrol` capability is
not enabled in the fixed configuration the Exporter passes to the
BasisCompiler — it is set to `False` at qasm.py line 142 — in either zx
mode. -/
theorem c8_counterexample :
    (exportCompilerFlags false).multicontrol = false
    ∧ (exportCompilerFlags true).multicontrol = false := ⟨rfl, rfl⟩

/-- Claim C8 (amended): the Exporter's fixed BasisCompiler configuration
enables every named composite capability except `multicontrol` and
`gradient_mode`, which are disabled, and sets the two ZX-only flags
(`ry_gate`, `y_gate`) exactly to the zx mode. -/
theorem c8_flag_configuration (zx_calculus : Bool) :
    (exportCompilerFlags zx_calculus).multitarget = true
    ∧ (exportCompilerFlags zx_calculus).multicontrol = false
    ∧ (exportCompilerFlags zx_calculus).trotterized = true
    ∧ (exportCompilerFlags zx_calculus).generalized_rotation = true
    ∧ (exportCompilerFlags zx_calculus).exponential_pauli = true
    ∧ (exportCompilerFlags zx_calculus).controlled_exponential_pauli = true
    ∧ (exportCompilerFlags zx_calculus).hadamard_power = true
    ∧ (exportCompilerFlags zx_calculus).controlled_power = true
    ∧ (exportCompilerFlags zx_calculus).power = true
    ∧ (exportCompilerFlags zx_calculus).toffoli = true
    ∧ (exportCompilerFlags zx_calculus).controlled_phase = true
    ∧ (exportCompilerFlags zx_calculus).phase = true
    ∧ (exportCompilerFlags zx_calculus).phase_to_z = true
    ∧ (exportCompilerFlags zx_calculus).controlled_rotation = true
    ∧ (exportCompilerFlags zx_calculus).swap = true
    ∧ (exportCompilerFlags zx_calculus).cc_max = true
    ∧ (exportCompilerFlags zx_calculus).gradient_mode = false
    ∧ (exportCompilerFlags zx_calculus).ry_gate = zx_calculus
    ∧ (exportCompilerFlags zx_calculus).y_gate = zx_calculus :=
  ⟨rfl, rfl, rfl, rfl, rfl, rfl, rfl, rfl, rfl, rfl, rfl, rfl, rfl, rfl, rfl, rfl, rfl, rfl, rfl⟩

/-! ## Statement parsing lemmas (claims C7, C10) -/

/-- The behaviour the amended claim C7 ascribes to one argument: the gate
index is the integer of the first bracketed digit run found anywhere in the
argument, and its absence raises the AttributeError of the failed
`re.search`. -/
def bracketLookupResult (nm : String) (a : List Char) : Except PyError (Option QCircuit) :=
  match findBracketInt a with
  | some t => Except.ok (some (gateCircuit nm t))
  | none => Except.error (PyError.attributeError attrGroupMsg)

/-- The argument list of qasm.py line 245: the comma-separated pieces of the
statement after its leading identifier, stripped, with empty pieces
dropped. -/
def pyArgs (rest : List Char) : List (List Char) :=
  ((splitChar ',' rest).map pyStrip).filter (fun l => !l.isEmpty)

/-- The behaviour the amended claim C7 ascribes to a whole x/y/z statement:
the result is determined by the first argument alone via
`bracketLookupResult`, and an empty argument list raises the IndexError of
`args[0]`. -/
def firstArgBracketResult (nm : String) (rest : List Char) : Except PyError (Option QCircuit) :=
  match pyArgs rest with
  | [] => Except.error (PyError.indexError "list index out of range")
  | a :: _ => bracketLookupResult nm a

theorem xyzHead (nm : String) (a : List Char) (tail : List (List Char)) :
    xyzFromArgs nm (a :: tail) = bracketLookupResult nm a := by
  cases hfb : findBracketInt a with
  | none => simp only [xyzFromArgs, bracketLookupResult, hfb]
  | some t => simp only [xyzFromArgs, bracketLookupResult, hfb]

theorem splitCharNeNil (sep : Char) : ∀ l : List Char, splitChar sep l ≠ [] := by
  intro l
  cases l with
  | nil => exact List.cons_ne_nil [] []
  | cons c t =>
    show (if c = sep then [] :: splitChar sep t
      else match splitChar sep t with
        | [] => [[c]]
        | h :: t2 => (c :: h) :: t2) ≠ []
    by_cases hc : c = sep
    · rw [if_pos hc]
      exact List.cons_ne_nil _ _
    · rw [if_neg hc]
      cases splitChar sep t with
      | nil => exact List.cons_ne_nil _ _
      | cons h t2 => exact List.cons_ne_nil _ _

theorem splitCharAppend (sep : Char) :
    ∀ l m : List Char, splitChar sep (l ++ sep :: m) = splitChar sep l ++ splitChar sep m := by
  intro l m
  induction l with
  | nil =>
    have h : splitChar sep (sep :: m) = [] :: splitChar sep m := by
      simp [splitChar]
    rw [List.nil_append]
    rw [h]
    rfl
  | cons c l ih =>
    by_cases hc : c = sep
    · show splitChar sep (c :: (l ++ sep :: m)) = splitChar sep (c :: l) ++ splitChar sep m
      simp only [splitChar]
      rw [if_pos hc, if_pos hc, ih]
      rfl
    · show splitChar sep (c :: (l ++ sep :: m)) = splitChar sep (c :: l) ++ splitChar sep m
      simp only [splitChar]
      rw [if_neg hc, if_neg hc, ih]
      cases hsl : splitChar sep l with
      | nil => exact absurd hsl (splitCharNeNil sep l)
      | cons h t2 => rfl

/-- Splitting the argument computation of qasm.py line 245 at a literal
comma: the arguments of the extended statement text are the arguments of the
left part followed by the arguments of the right part. -/
theorem pyArgsAppend (l m : List Char) : pyArgs (l ++ ',' :: m) = pyArgs l ++ pyArgs m := by
  unfold pyArgs
  rw [splitCharAppend ',' l m, List.map_append, List.filter_append]

/-- Counterexample to claim C7 as stated: the first argument `q[1]x` is not
of the exact shape of a register name followed by one bracketed index, yet
parsing does not raise the ArgumentParseError — `re.search` finds the
bracketed index anywhere in the argument, so the statement parses to an X
gate on qubit 1. -/
theorem c7_counterexample :
    parse_command "x q[1]x" = Except.ok (some (gateCircuit "X" 1)) := rfl

/-- Claim C7 (amended): for every statement whose leading identifier is x, y
or z — any rest text whatsoever — the parser builds a single-qubit gate of
that name targeting the integer of the first bracketed digit run found
anywhere in the first argument (the first comma-separated piece that is
nonempty after stripping), raising the AttributeError of the failed search
when that first argument has no bracketed digit run and the IndexError of
`args[0]` when there is no argument; moreover any further comma-separated
arguments appended to the statement never change the result, which stays
that of the first argument. -/
theorem c7_bracket_search (rest : List Char) :
    parse_command (String.mk ('x' :: ' ' :: rest)) = firstArgBracketResult "X" rest
    ∧ parse_command (String.mk ('y' :: ' ' :: rest)) = firstArgBracketResult "Y" rest
    ∧ parse_command (String.mk ('z' :: ' ' :: rest)) = firstArgBracketResult "Z" rest
    ∧ ∀ (a : List Char) (tail : List (List Char)), pyArgs rest = a :: tail →
        ∀ more : List Char,
          parse_command (String.mk ('x' :: ' ' :: (rest ++ ',' :: more)))
            = bracketLookupResult "X" a := by
  refine ⟨?_, ?_, ?_, ?_⟩
  · show xyzFromArgs "X" (pyArgs rest) = firstArgBracketResult "X" rest
    unfold firstArgBracketResult
    cases pyArgs rest with
    | nil => rfl
    | cons a t => exact xyzHead "X" a t
  · show xyzFromArgs "Y" (pyArgs rest) = firstArgBracketResult "Y" rest
    unfold firstArgBracketResult
    cases pyArgs rest with
    | nil => rfl
    | cons a t => exact xyzHead "Y" a t
  · show xyzFromArgs "Z" (pyArgs rest) = firstArgBracketResult "Z" rest
    unfold firstArgBracketResult
    cases pyArgs rest with
    | nil => rfl
    | cons a t => exact xyzHead "Z" a t
  · intro a tail hargs more
    show xyzFromArgs "X" (pyArgs (rest ++ ',' :: more)) = bracketLookupResult "X" a
    rw [pyArgsAppend rest more, hargs]
    exact xyzHead "X" a (tail ++ pyArgs more)

/-- Witness for C7 (amended): a bracketed first argument parses to the gate
with its index, an argument with no bracketed digit run raises the
AttributeError, and in multi-argument statements the first argument decides
the result — `x q[0],q[1]` targets qubit 0 and `x qq,q[1]` still raises even
though the later argument carries a bracketed index. -/
theorem c7_witness :
    parse_command "x q[0]" = Except.ok (some (gateCircuit "X" 0))
    ∧ parse_command "y qq" = Except.error (PyError.attributeError attrGroupMsg)
    ∧ parse_command "x q[0],q[1]" = Except.ok (some (gateCircuit "X" 0))
    ∧ parse_command "x qq,q[1]" = Except.error (PyError.attributeError attrGroupMsg) :=
  ⟨(c7_bracket_search "q[0]".data).1,
   (c7_bracket_search "qq".data).2.1,
   (c7_bracket_search "q[0]".data).2.2.2 "q[0]".data [] rfl "q[1]".data,
   (c7_bracket_search "qq".data).2.2.2 "qq".data [] rfl "q[1]".data⟩

theorem splitOnceCharOfMem (sep : Char) :
    ∀ l : List Char, sep ∈ l →
      ∃ nr : List Char × List Char, splitOnceChar sep l = some nr := by
  intro l
  induction l with
  | nil => intro h; cases h
  | cons c t ih =>
    intro h
    by_cases hc : c = sep
    · refine ⟨([], t), ?_⟩
      simp only [splitOnceChar]
      rw [if_pos hc]
    · have hm : sep ∈ t := by
        cases h with
        | head => exact absurd rfl hc
        | tail _ hm => exact hm
      obtain ⟨nr, hnr⟩ := ih hm
      refine ⟨(c :: nr.1, nr.2), ?_⟩
      simp only [splitOnceChar]
      rw [if_neg hc, hnr]
      rfl

/-- The leading identifier of a statement: the part before the first space,
or the whole statement when it has no space. -/
def leadName (c : String) : String :=
  match splitOnceChar ' ' c.data with
  | some p => String.mk p.1
  | none => c

/-- Claim C10 (confirmed): a statement that contains a space and whose
leading identifier is outside the dispatch table produces no gate and raises
no error, and contributes nothing to the circuit accumulated by the import
loop. -/
theorem c10_unknown_ignored (c : String) (hsp : ' ' ∈ c.data)
    (hname : leadName c ∉
      (["barrier", "creg", "measure", "id", "opaque", "if", "x", "y", "z"] : List String)) :
    parse_command c = Except.ok none
    ∧ ∀ (cs : List (List Char)) (acc : QCircuit),
        foldCommands (c.data :: cs) acc = foldCommands cs acc := by
  obtain ⟨⟨n, r⟩, hnr⟩ := splitOnceCharOfMem ' ' c.data hsp
  have hln : leadName c = String.mk n := by
    unfold leadName
    rw [hnr]
  rw [hln] at hname
  simp only [List.mem_cons, List.not_mem_nil, or_false, not_or] at hname
  obtain ⟨h1, h2, h3, h4, h5, h6, h7, h8, h9⟩ := hname
  have hstep : parse_command c = parseNamed c (String.mk n) r := by
    unfold parse_command
    rw [hnr]
  have hA : ¬(String.mk n = "barrier" ∨ String.mk n = "creg"
      ∨ String.mk n = "measure" ∨ String.mk n = "id") :=
    not_or.mpr ⟨h1, not_or.mpr ⟨h2, not_or.mpr ⟨h3, h4⟩⟩⟩
  have hB : ¬(String.mk n = "opaque" ∨ String.mk n = "if") := not_or.mpr ⟨h5, h6⟩
  have hpc : parse_command c = Except.ok none := by
    rw [hstep]
    unfold parseNamed
    rw [if_neg hA, if_neg hB]
    show (if String.mk n = "x" then
        xyzFromArgs "X" (((splitChar ',' r).map pyStrip).filter (fun l => !l.isEmpty))
      else if String.mk n = "y" then
        xyzFromArgs "Y" (((splitChar ',' r).map pyStrip).filter (fun l => !l.isEmpty))
      else if String.mk n = "z" then
        xyzFromArgs "Z" (((splitChar ',' r).map pyStrip).filter (fun l => !l.isEmpty))
      else Except.ok none) = Except.ok none
    rw [if_neg h7, if_neg h8, if_neg h9]
  refine ⟨hpc, ?_⟩
  intro cs acc
  calc foldCommands (c.data :: cs) acc
      = (match parse_command c with
        | Except.error e => Except.error e
        | Except.ok none => foldCommands cs acc
        | Except.ok (some res) => foldCommands cs (acc.add res)) := rfl
    _ = foldCommands cs acc := by rw [hpc]

/-- Witness for C10: the controlled-X statement of exported text is silently
ignored on import and leaves the accumulated circuit unchanged. -/
theorem c10_witness :
    parse_command "cx q[0],q[1]" = Except.ok none
    ∧ foldCommands ["cx q[0],q[1]".data, "x q[0]".data] ⟨[]⟩
        = foldCommands ["x q[0]".data] ⟨[]⟩ :=
  ⟨(c10_unknown_ignored "cx q[0],q[1]" (by decide) (by decide)).1,
   (c10_unknown_ignored "cx q[0],q[1]" (by decide) (by decide)).2 ["x q[0]".data] ⟨[]⟩⟩

end TequilaQasm
